import Mathlib

/-!
Verification of the chunk-and-reduce summarizer, the paraphrase
diversity controller and the metrics endpoint of the
Text_morph_summarization repository.

Python strings are modelled as `List Char`; Python floats are modelled as
exact rationals (`Rat`); the external sequence-to-sequence generator
(tokenize + `model.generate` + decode) is modelled as an oracle function
passed to each operation.  Each definition mirrors one Python function of
`Backend/summarizer.py`, `Backend/fine_tuned_summarizer.py`,
`Backend/parahrase.py` or `Backend/main.py`.
-/

set_option linter.unusedVariables false

namespace TextMorph

/-- Word collector for `pySplit`: `acc` holds the characters of the word
currently being read, in reverse order. -/
def pySplitAux : List Char → List Char → List (List Char)
  | [], acc => if acc.isEmpty then [] else [acc.reverse]
  | c :: cs, acc =>
    if c.isWhitespace then
      if acc.isEmpty then pySplitAux cs []
      else acc.reverse :: pySplitAux cs []
    else pySplitAux cs (c :: acc)

/-- Python `str.split()` (no separator argument): splits on runs of
whitespace and never returns empty pieces.  Models `text.split()` in
`Backend/summarizer.py` line 32. -/
def pySplit (l : List Char) : List (List Char) := pySplitAux l []

/-- Python `str.strip()`: removes leading and trailing whitespace. -/
def pyStrip (s : List Char) : List Char :=
  ((s.dropWhile Char.isWhitespace).reverse.dropWhile Char.isWhitespace).reverse

/-- Python `str.lower()` (modelled characterwise). -/
def pyLower (s : List Char) : List Char := s.map Char.toLower

/-- Python joining a list of pieces with single spaces (`" ".join(pieces)`). -/
def joinSpace : List (List Char) → List Char
  | [] => []
  | [w] => w
  | w :: x :: ws => w ++ ' ' :: joinSpace (x :: ws)

theorem pySplit_nil : pySplit [] = [] := rfl

theorem joinSpace_nil : joinSpace [] = [] := rfl

theorem joinSpace_single (w : List Char) : joinSpace [w] = w := rfl

theorem joinSpace_cons₂ (w x : List Char) (t : List (List Char)) :
    joinSpace (w :: x :: t) = w ++ ' ' :: joinSpace (x :: t) := rfl

/-- The slices `words[i:i+k]` for `i in range(0, len(words), k)`
(`Backend/summarizer.py` lines 35-36).  For `k ≥ 1` this take/drop
recursion produces exactly Python's slice sequence; the `k = 0` case
(which raises `ValueError` in Python) is outside every claim. -/
def chunksOf (k : Nat) : List α → List (List α)
  | [] => []
  | a :: l => (a :: l.take (k - 1)) :: chunksOf k (l.drop (k - 1))
termination_by l => l.length
decreasing_by
  simp_wf
  omega

/-- Whitespace-free nonempty pieces: the shape of every word `str.split()`
returns. -/
def IsWord (w : List Char) : Prop := w ≠ [] ∧ ∀ c ∈ w, ¬ c.isWhitespace

theorem pySplitAux_word (w : List Char) (hw : ∀ c ∈ w, ¬ c.isWhitespace) :
    ∀ (rest acc : List Char), pySplitAux (w ++ rest) acc = pySplitAux rest (w.reverse ++ acc) := by
  induction w with
  | nil => intro rest acc; simp
  | cons a w ih =>
    intro rest acc
    have ha : ¬ a.isWhitespace := hw a (by simp)
    rw [List.cons_append, pySplitAux, if_neg ha,
      ih (fun c hc => hw c (by simp [hc])) rest (a :: acc)]
    simp

theorem pySplit_all_ws (l : List Char) (h : ∀ c ∈ l, c.isWhitespace) :
    pySplit l = [] := by
  unfold pySplit
  induction l with
  | nil => rfl
  | cons c cs ih =>
    have hc : c.isWhitespace := h c (by simp)
    rw [pySplitAux, if_pos hc]
    simp only [List.isEmpty_nil, if_true]
    exact ih (fun d hd => h d (by simp [hd]))

theorem all_ws_of_pyStrip_nil (s : List Char) (h : pyStrip s = []) :
    ∀ c ∈ s, c.isWhitespace := by
  unfold pyStrip at h
  rw [List.reverse_eq_nil_iff, List.dropWhile_eq_nil_iff] at h
  have h2 : ∀ c ∈ s.dropWhile Char.isWhitespace, c.isWhitespace := by
    intro c hc
    exact h c (by simpa using hc)
  intro c hc
  rw [← List.takeWhile_append_dropWhile (p := Char.isWhitespace) (l := s)] at hc
  rcases List.mem_append.mp hc with h3 | h3
  · exact List.mem_takeWhile_imp h3
  · exact h2 c h3

theorem pySplitAux_words (l : List Char) :
    ∀ acc, (∀ c ∈ acc, ¬ c.isWhitespace) → ∀ w ∈ pySplitAux l acc, IsWord w := by
  induction l with
  | nil =>
    intro acc hacc w hw
    rw [pySplitAux] at hw
    by_cases h : acc.isEmpty
    · rw [if_pos h] at hw; cases hw
    · rw [if_neg h] at hw
      have hwr : w = acc.reverse := by simpa using hw
      subst hwr
      refine ⟨?_, fun c hc => hacc c (by simpa using hc)⟩
      simpa [List.isEmpty_iff] using h
  | cons c cs ih =>
    intro acc hacc w hw
    rw [pySplitAux] at hw
    by_cases hc : c.isWhitespace
    · rw [if_pos hc] at hw
      by_cases h : acc.isEmpty
      · rw [if_pos h] at hw
        exact ih [] (by simp) w hw
      · rw [if_neg h] at hw
        rcases List.mem_cons.mp hw with rfl | hw
        · refine ⟨by simpa [List.isEmpty_iff] using h,
            fun d hd => hacc d (by simpa using hd)⟩
        · exact ih [] (by simp) w hw
    · rw [if_neg hc] at hw
      refine ih (c :: acc) ?_ w hw
      intro d hd
      rcases List.mem_cons.mp hd with rfl | hd
      · exact hc
      · exact hacc d hd

theorem pySplit_words (l : List Char) : ∀ w ∈ pySplit l, IsWord w :=
  pySplitAux_words l [] (by simp)

theorem pySplit_word_cons (w rest : List Char) (hw : IsWord w) :
    pySplit (w ++ ' ' :: rest) = w :: pySplit rest := by
  unfold pySplit
  rw [pySplitAux_word w hw.2 (' ' :: rest) [], pySplitAux,
    if_pos (by simp : (' ' : Char).isWhitespace = true)]
  have hne : (w.reverse ++ ([] : List Char)).isEmpty = false := by
    simp [List.isEmpty_iff, hw.1]
  rw [if_neg (by simp [List.isEmpty_iff, hw.1])]
  simp

theorem pySplit_single_word (w : List Char) (hw : IsWord w) :
    pySplit w = [w] := by
  unfold pySplit
  have h := pySplitAux_word w hw.2 [] []
  rw [List.append_nil] at h
  rw [h, pySplitAux, if_neg (by simp [List.isEmpty_iff, hw.1])]
  simp

theorem pySplit_joinSpace (ws : List (List Char)) (h : ∀ w ∈ ws, IsWord w) :
    pySplit (joinSpace ws) = ws := by
  induction ws with
  | nil => exact pySplit_nil
  | cons w ws ih =>
    cases ws with
    | nil => exact pySplit_single_word w (h w (by simp))
    | cons x t =>
      rw [joinSpace_cons₂, pySplit_word_cons w _ (h w (by simp))]
      rw [ih (fun v hv => h v (by simp [hv]))]

theorem joinSpace_append (xs ys : List (List Char)) (hx : xs ≠ []) (hy : ys ≠ []) :
    joinSpace (xs ++ ys) = joinSpace xs ++ ' ' :: joinSpace ys := by
  induction xs with
  | nil => exact absurd rfl hx
  | cons a xs ih =>
    cases xs with
    | nil =>
      cases ys with
      | nil => exact absurd rfl hy
      | cons b t => simp [joinSpace_single, joinSpace_cons₂]
    | cons c t =>
      have hmid := ih (by simp)
      rw [List.cons_append, List.cons_append, joinSpace_cons₂, ← List.cons_append,
        hmid, joinSpace_cons₂]
      simp

theorem joinSpace_map_joinSpace (gss : List (List (List Char)))
    (h : ∀ g ∈ gss, g ≠ []) :
    joinSpace (gss.map joinSpace) = joinSpace gss.flatten := by
  induction gss with
  | nil => rfl
  | cons g gss ih =>
    cases gss with
    | nil => simp [joinSpace_single]
    | cons g2 t =>
      have hg : g ≠ [] := h g (by simp)
      have hj : (g2 :: t).flatten ≠ [] := by
        have hg2 : g2 ≠ [] := h g2 (by simp)
        simp only [List.flatten_cons]
        intro habs
        exact hg2 (List.append_eq_nil.mp habs).1
      have hj' : g2 ++ t.flatten ≠ [] := by simpa using hj
      have hfl : (g :: g2 :: t).flatten = g ++ (g2 ++ t.flatten) := by simp
      rw [List.map_cons, List.map_cons, joinSpace_cons₂, ← List.map_cons joinSpace g2 t,
        ih (fun x hx => h x (by simp [hx])), hfl, joinSpace_append g _ hg hj']
      simp

theorem chunksOf_cons (k : Nat) (a : α) (l : List α) :
    chunksOf (k + 1) (a :: l) = (a :: l.take k) :: chunksOf (k + 1) (l.drop k) := by
  rw [chunksOf]
  simp

theorem chunksOf_flatten (k : Nat) (l : List α) : (chunksOf k l).flatten = l := by
  induction l using chunksOf.induct k with
  | case1 => simp [chunksOf]
  | case2 a l ih =>
    rw [chunksOf, List.flatten_cons, ih]
    simp [List.take_append_drop]

theorem chunksOf_nil (k : Nat) : chunksOf k ([] : List α) = [] := by
  simp [chunksOf]

theorem chunksOf_cons' (k : Nat) (a : α) (l : List α) :
    chunksOf k (a :: l) = (a :: l.take (k - 1)) :: chunksOf k (l.drop (k - 1)) := by
  rw [chunksOf]

theorem chunksOf_length (k : Nat) (l : List α) :
    (chunksOf (k + 1) l).length = (l.length + k) / (k + 1) := by
  induction l using chunksOf.induct (k + 1) with
  | case1 =>
    rw [chunksOf_nil]
    rw [show (([] : List α).length + k) / (k + 1) = 0 from Nat.div_eq_of_lt (by simp)]
    rfl
  | case2 a l ih =>
    rw [chunksOf_cons']
    simp only [show k + 1 - 1 = k from rfl] at ih ⊢
    simp only [List.length_cons]
    rw [ih, List.length_drop]
    by_cases hk : k ≤ l.length
    · rw [Nat.sub_add_cancel hk,
        show l.length + 1 + k = l.length + (k + 1) from by omega,
        Nat.add_div_right _ (by omega)]
    · rw [show l.length - k = 0 from by omega]
      rw [show (0 + k) / (k + 1) = 0 from Nat.div_eq_of_lt (by omega)]
      rw [show (l.length + 1 + k) / (k + 1) = 1 from
        Nat.div_eq_of_lt_le (by omega) (by omega)]

theorem chunksOf_get (k : Nat) (l : List α) (i : Nat)
    (h : i < (chunksOf (k + 1) l).length) :
    (chunksOf (k + 1) l).get ⟨i, h⟩ = (l.drop ((k + 1) * i)).take (k + 1) := by
  induction l using chunksOf.induct (k + 1) generalizing i with
  | case1 =>
    rw [chunksOf_nil] at h
    simp at h
  | case2 a l ih =>
    have heq := chunksOf_cons' (k + 1) a l
    simp only [show k + 1 - 1 = k from rfl] at heq ih
    cases i with
    | zero =>
      rw [List.get_of_eq heq]
      simp
    | succ j =>
      have hlt : j < (chunksOf (k + 1) (List.drop k l)).length := by
        rw [heq] at h
        simpa using h
      rw [List.get_of_eq heq, List.get_cons_succ]
      have hih := ih j hlt
      rw [List.drop_drop] at hih
      rw [show (k + 1) * (j + 1) = (k + (k + 1) * j) + 1 from by ring,
        List.drop_succ_cons]
      exact hih

theorem chunksOf_subset (k : Nat) (l : List α) :
    ∀ g ∈ chunksOf k l, ∀ x ∈ g, x ∈ l := by
  induction l using chunksOf.induct k with
  | case1 =>
    intro g hg
    rw [chunksOf_nil] at hg
    cases hg
  | case2 a l ih =>
    intro g hg
    rw [chunksOf_cons'] at hg
    rcases List.mem_cons.mp hg with rfl | hg
    · intro x hx
      rcases List.mem_cons.mp hx with rfl | hx
      · simp
      · exact List.mem_cons_of_mem _ (List.take_subset _ _ hx)
    · intro x hx
      exact List.mem_cons_of_mem _ (List.drop_subset _ _ (ih g hg x hx))

theorem chunksOf_groups_ne_nil (k : Nat) (l : List α) :
    ∀ g ∈ chunksOf k l, g ≠ [] := by
  induction l using chunksOf.induct k with
  | case1 => intro g hg; simp [chunksOf] at hg
  | case2 a l ih =>
    intro g hg
    rw [chunksOf] at hg
    rcases List.mem_cons.mp hg with rfl | hg
    · simp
    · exact ih g hg

/-- `_chunk_text_by_words` of `Backend/summarizer.py` lines 30-36 (the
identical copy in `Backend/fine_tuned_summarizer.py` lines 47-53):
split into words, return nothing for blank input, else join each
`max_words`-slice back with single spaces. -/
def _chunk_text_by_words (text : List Char) (max_words : Nat) : List (List Char) :=
  let words := pySplit text
  if words = [] then []
  else (chunksOf max_words words).map joinSpace

end TextMorph

namespace TextMorph

/-- C1: for every input text and every chunk size `k ≥ 1`, concatenating the
chunks produced by `_chunk_text_by_words text k` in index order, separated by
single spaces, yields exactly the original whitespace-delimited word sequence
of the text — no word is lost or duplicated at chunk boundaries. -/
theorem chunk_concat_restores_word_sequence (text : List Char) (k : Nat) (hk : 1 ≤ k) :
    pySplit (joinSpace (_chunk_text_by_words text k)) = pySplit text := by
  by_cases hw : pySplit text = []
  · rw [show _chunk_text_by_words text k = [] from by simp [_chunk_text_by_words, hw]]
    rw [joinSpace_nil, pySplit_nil, hw]
  · rw [show _chunk_text_by_words text k = (chunksOf k (pySplit text)).map joinSpace from by
      simp [_chunk_text_by_words, hw]]
    rw [joinSpace_map_joinSpace _ (chunksOf_groups_ne_nil k (pySplit text)), chunksOf_flatten]
    exact pySplit_joinSpace _ (pySplit_words text)

/-- Witness for C1 at the concrete text `"a b c d e"` and chunk size 2. -/
theorem chunk_concat_restores_word_sequence_witness :
    1 ≤ 2 ∧ pySplit (joinSpace (_chunk_text_by_words "a b c d e".data 2)) =
      pySplit "a b c d e".data :=
  ⟨by decide, chunk_concat_restores_word_sequence "a b c d e".data 2 (by decide)⟩

/-- C2: for `k ≥ 1`, `_chunk_text_by_words` yields no chunks on blank input,
produces `⌈n/k⌉` chunks on an `n`-word text, every chunk except the last holds
exactly `k` words, the last holds the remaining `n - k*(⌈n/k⌉ - 1)` words, and
`_chunk_text_by_words "a b c d e" 2 = ["a b", "c d", "e"]`. -/
theorem chunk_count_and_chunk_sizes (text : List Char) (k : Nat) (hk : 1 ≤ k) :
    ((pySplit text = [] → _chunk_text_by_words text k = []) ∧
      (_chunk_text_by_words text k).length = ((pySplit text).length + k - 1) / k ∧
      ∀ i : Fin (_chunk_text_by_words text k).length,
        (pySplit ((_chunk_text_by_words text k).get i)).length =
          if (i : Nat) + 1 = (_chunk_text_by_words text k).length
          then (pySplit text).length - k * (i : Nat)
          else k) ∧
    _chunk_text_by_words "a b c d e".data 2 = ["a b".data, "c d".data, "e".data] := by
  obtain ⟨k', rfl⟩ : ∃ k', k = k' + 1 := ⟨k - 1, by omega⟩
  refine ⟨⟨?_, ?_, ?_⟩, ?_⟩
  · intro hw
    simp [_chunk_text_by_words, hw]
  · by_cases hw : pySplit text = []
    · have hc0 : _chunk_text_by_words text (k' + 1) = [] := by
        simp [_chunk_text_by_words, hw]
      rw [hc0, hw]
      simp [Nat.div_eq_of_lt (show k' < k' + 1 from by omega)]
    · rw [show _chunk_text_by_words text (k' + 1) = (chunksOf (k' + 1) (pySplit text)).map joinSpace
        from by simp [_chunk_text_by_words, hw]]
      rw [List.length_map, chunksOf_length]
      congr 1
  · intro i
    by_cases hw : pySplit text = []
    · have h0 : (_chunk_text_by_words text (k' + 1)).length = 0 := by
        simp [_chunk_text_by_words, hw]
      have h2 := i.2
      exact absurd h2 (by omega)
    · obtain ⟨j, hj⟩ := i
      have hchunks : _chunk_text_by_words text (k' + 1) =
          (chunksOf (k' + 1) (pySplit text)).map joinSpace := by
        simp [_chunk_text_by_words, hw]
      have hj' : j < (chunksOf (k' + 1) (pySplit text)).length := by
        have h2 := hj
        rw [hchunks, List.length_map] at h2
        exact h2
      have hlen : (_chunk_text_by_words text (k' + 1)).length =
          (chunksOf (k' + 1) (pySplit text)).length := by
        rw [hchunks, List.length_map]
      have hget : (_chunk_text_by_words text (k' + 1)).get ⟨j, hj⟩ =
          joinSpace ((chunksOf (k' + 1) (pySplit text)).get ⟨j, hj'⟩) := by
        rw [List.get_of_eq hchunks]
        simp
      have hmem : (chunksOf (k' + 1) (pySplit text)).get ⟨j, hj'⟩ ∈
          chunksOf (k' + 1) (pySplit text) := List.get_mem _ _ _
      have hwords : ∀ w ∈ (chunksOf (k' + 1) (pySplit text)).get ⟨j, hj'⟩, IsWord w :=
        fun w hw2 => pySplit_words text w (chunksOf_subset _ _ _ hmem w hw2)
      rw [hget, pySplit_joinSpace _ hwords, chunksOf_get, List.length_take, List.length_drop]
      simp only [Fin.val_mk]
      rw [hlen, chunksOf_length]
      have hdm := Nat.div_add_mod ((pySplit text).length + k') (k' + 1)
      have hmod : ((pySplit text).length + k') % (k' + 1) < k' + 1 := Nat.mod_lt _ (by omega)
      by_cases hif : j + 1 = ((pySplit text).length + k') / (k' + 1)
      · rw [if_pos hif]
        rw [← hif, Nat.mul_succ] at hdm
        exact Nat.min_eq_right (by omega)
      · rw [if_neg hif]
        have hjlt : j < ((pySplit text).length + k') / (k' + 1) := by
          rw [hlen, chunksOf_length] at hj
          exact hj
        have hmul := Nat.mul_le_mul_left (k' + 1)
          (show j + 2 ≤ ((pySplit text).length + k') / (k' + 1) from by omega)
        rw [Nat.mul_succ, Nat.mul_succ] at hmul
        exact Nat.min_eq_left (by omega)
  · have h1 : pySplit "a b c d e".data = [['a'], ['b'], ['c'], ['d'], ['e']] := by decide
    simp [_chunk_text_by_words, h1, chunksOf_cons', chunksOf_nil, joinSpace_cons₂,
      joinSpace_single]

/-- Witness for C2 at the concrete text `"a b c d e"` and chunk size 2. -/
theorem chunk_count_and_chunk_sizes_witness :
    1 ≤ 2 ∧
    (((pySplit "a b c d e".data = [] → _chunk_text_by_words "a b c d e".data 2 = []) ∧
      (_chunk_text_by_words "a b c d e".data 2).length =
        ((pySplit "a b c d e".data).length + 2 - 1) / 2 ∧
      ∀ i : Fin (_chunk_text_by_words "a b c d e".data 2).length,
        (pySplit ((_chunk_text_by_words "a b c d e".data 2).get i)).length =
          if (i : Nat) + 1 = (_chunk_text_by_words "a b c d e".data 2).length
          then (pySplit "a b c d e".data).length - 2 * (i : Nat)
          else 2) ∧
    _chunk_text_by_words "a b c d e".data 2 = ["a b".data, "c d".data, "e".data]) :=
  ⟨by decide, chunk_count_and_chunk_sizes "a b c d e".data 2 (by decide)⟩

end TextMorph

namespace TextMorph

/-- Decode parameters of one `model.generate(...)` call in
`Backend/summarizer.py` (beam search); `length_penalty` is a Python float,
modelled as an exact rational. -/
structure GenParams where
  max_length : Nat
  min_length : Nat
  num_beams : Nat
  length_penalty : Rat
  early_stopping : Bool
deriving DecidableEq, Repr

/-- The token-length lookup table of `summarize_text`
(`Backend/summarizer.py` lines 52-57); `dict.get` defaults unknown classes
to medium. -/
def length_map (summary_length : List Char) : Nat × Nat :=
  if summary_length = "short".data then (30, 80)
  else if summary_length = "medium".data then (80, 150)
  else if summary_length = "long".data then (150, 300)
  else (80, 150)

/-- The per-chunk decode parameters of `Backend/summarizer.py` lines 68-75. -/
def chunkGenParams (min_len max_len : Nat) : GenParams :=
  { max_length := max_len, min_length := min_len, num_beams := 6,
    length_penalty := 2, early_stopping := true }

/-- `summarize_text` of `Backend/summarizer.py` lines 38-99.
`gen model_key params prompt` stands for the external collaborator chain
`load_model` + tokenizer + `model.generate` + `tokenizer.decode`, keyed by
`model_choice` exactly as the module-level model cache is.  The second
component of the result records every generation call issued, in order, as
`(params, prompt)` pairs (an instrumentation; the first component is the
function's return value). -/
def summarize_text (gen : List Char → GenParams → List Char → List Char)
    (text : List Char) (model_choice summary_length : List Char) :
    List Char × List (GenParams × List Char) :=
  if pyStrip text = [] then ("Error: no text to summarize.".data, [])
  else
    let mn := (length_map summary_length).1
    let mx := (length_map summary_length).2
    let chunks := _chunk_text_by_words text 800
    let chunk_summaries :=
      chunks.map (fun c => pyStrip (gen model_choice (chunkGenParams mn mx) c))
    let calls := chunks.map (fun c => (chunkGenParams mn mx, c))
    if chunk_summaries.length = 0 then ("Error: nothing to summarize.".data, calls)
    else if chunk_summaries.length = 1 then (chunk_summaries.headI, calls)
    else
      let combined := joinSpace chunk_summaries
      let fp : GenParams :=
        { max_length := mx, min_length := max mn 20, num_beams := 6,
          length_penalty := 2, early_stopping := true }
      (pyStrip (gen model_choice fp combined), calls ++ [(fp, combined)])

theorem chunks_nil_of_blank (text : List Char) (k : Nat) (h : pyStrip text = []) :
    _chunk_text_by_words text k = [] := by
  have hsp : pySplit text = [] := pySplit_all_ws text (all_ws_of_pyStrip_nil text h)
  simp [_chunk_text_by_words, hsp]

end TextMorph

namespace TextMorph

/-- A generation oracle that echoes its prompt, for concrete witnesses. -/
def genEcho : List Char → GenParams → List Char → List Char :=
  fun _ _ prompt => prompt

/-- C4: whenever the input segments into exactly one chunk, `summarize_text`
returns that chunk's (stripped) generated candidate unchanged as the final
result, and issues exactly one generation call — no reduce pass. -/
theorem summarize_single_chunk_no_reduce
    (gen : List Char → GenParams → List Char → List Char)
    (text model_choice summary_length c : List Char)
    (h : _chunk_text_by_words text 800 = [c]) :
    (summarize_text gen text model_choice summary_length).1 =
      pyStrip (gen model_choice
        (chunkGenParams (length_map summary_length).1 (length_map summary_length).2) c) ∧
    (summarize_text gen text model_choice summary_length).2 =
      [(chunkGenParams (length_map summary_length).1 (length_map summary_length).2, c)] := by
  have hnb : ¬ pyStrip text = [] := by
    intro hb
    rw [chunks_nil_of_blank text 800 hb] at h
    cases h
  rw [summarize_text, if_neg hnb]
  simp [h]

/-- Witness for C4: `"hello world"` is a single chunk; the echo oracle
returns it, and exactly one generation call is recorded. -/
theorem summarize_single_chunk_no_reduce_witness :
    _chunk_text_by_words "hello world".data 800 = ["hello world".data] ∧
    ((summarize_text genEcho "hello world".data "pegasus".data "medium".data).1 =
      pyStrip (genEcho "pegasus".data
        (chunkGenParams (length_map "medium".data).1 (length_map "medium".data).2)
        "hello world".data) ∧
     (summarize_text genEcho "hello world".data "pegasus".data "medium".data).2 =
      [(chunkGenParams (length_map "medium".data).1 (length_map "medium".data).2,
        "hello world".data)]) := by
  have h : _chunk_text_by_words "hello world".data 800 = ["hello world".data] := by
    have h1 : pySplit "hello world".data = ["hello".data, "world".data] := by decide
    simp [_chunk_text_by_words, h1, chunksOf_cons', chunksOf_nil, joinSpace_cons₂,
      joinSpace_single]
  exact ⟨h, summarize_single_chunk_no_reduce genEcho _ _ _ _ h⟩

end TextMorph

namespace TextMorph

/-- The reduce-pass decode parameters (`Backend/summarizer.py` lines 90-97):
identical to the per-chunk parameters except that the minimum length is
floored at 20 tokens. -/
def reduceGenParams (min_len max_len : Nat) : GenParams :=
  { max_length := max_len, min_length := max min_len 20, num_beams := 6,
    length_penalty := 2, early_stopping := true }

/-- C5: with two or more chunks, `summarize_text` space-joins the per-chunk
candidates in chunk order, issues exactly one further generation call over
the concatenation whose decode parameters equal the per-chunk ones except
that the minimum length bound is floored at 20 tokens, and returns that
call's output stripped of surrounding whitespace. -/
theorem summarize_multi_chunk_reduce
    (gen : List Char → GenParams → List Char → List Char)
    (text model_choice summary_length : List Char)
    (h : 2 ≤ (_chunk_text_by_words text 800).length) :
    (summarize_text gen text model_choice summary_length).1 =
      pyStrip (gen model_choice
        (reduceGenParams (length_map summary_length).1 (length_map summary_length).2)
        (joinSpace ((_chunk_text_by_words text 800).map (fun c =>
          pyStrip (gen model_choice
            (chunkGenParams (length_map summary_length).1 (length_map summary_length).2)
            c))))) ∧
    (summarize_text gen text model_choice summary_length).2 =
      (_chunk_text_by_words text 800).map (fun c =>
        (chunkGenParams (length_map summary_length).1 (length_map summary_length).2, c)) ++
      [(reduceGenParams (length_map summary_length).1 (length_map summary_length).2,
        joinSpace ((_chunk_text_by_words text 800).map (fun c =>
          pyStrip (gen model_choice
            (chunkGenParams (length_map summary_length).1 (length_map summary_length).2)
            c))))] ∧
    reduceGenParams (length_map summary_length).1 (length_map summary_length).2 =
      { chunkGenParams (length_map summary_length).1 (length_map summary_length).2 with
        min_length := max (length_map summary_length).1 20 } := by
  have hnb : ¬ pyStrip text = [] := by
    intro hb
    rw [chunks_nil_of_blank text 800 hb] at h
    simp at h
  have hlen : ((_chunk_text_by_words text 800).map (fun c =>
      pyStrip (gen model_choice
        (chunkGenParams (length_map summary_length).1 (length_map summary_length).2)
        c))).length = (_chunk_text_by_words text 800).length := List.length_map _ _
  rw [summarize_text, if_neg hnb]
  simp only [hlen]
  rw [if_neg (by omega), if_neg (by omega)]
  refine ⟨rfl, rfl, rfl⟩

/-- An 801-word text: the smallest shape that produces two chunks. -/
def text801 : List Char := joinSpace (List.replicate 801 ['a'])

/-- Witness for C5 at a concrete 801-word text and the echo oracle. -/
theorem summarize_multi_chunk_reduce_witness :
    2 ≤ (_chunk_text_by_words text801 800).length ∧
    ((summarize_text genEcho text801 "pegasus".data "medium".data).1 =
      pyStrip (genEcho "pegasus".data
        (reduceGenParams (length_map "medium".data).1 (length_map "medium".data).2)
        (joinSpace ((_chunk_text_by_words text801 800).map (fun c =>
          pyStrip (genEcho "pegasus".data
            (chunkGenParams (length_map "medium".data).1 (length_map "medium".data).2)
            c))))) ∧
     (summarize_text genEcho text801 "pegasus".data "medium".data).2 =
      (_chunk_text_by_words text801 800).map (fun c =>
        (chunkGenParams (length_map "medium".data).1 (length_map "medium".data).2, c)) ++
      [(reduceGenParams (length_map "medium".data).1 (length_map "medium".data).2,
        joinSpace ((_chunk_text_by_words text801 800).map (fun c =>
          pyStrip (genEcho "pegasus".data
            (chunkGenParams (length_map "medium".data).1 (length_map "medium".data).2)
            c))))] ∧
     reduceGenParams (length_map "medium".data).1 (length_map "medium".data).2 =
      { chunkGenParams (length_map "medium".data).1 (length_map "medium".data).2 with
        min_length := max (length_map "medium".data).1 20 }) := by
  have hsplit : pySplit text801 = List.replicate 801 ['a'] := by
    refine pySplit_joinSpace _ ?_
    intro w hw
    rw [List.eq_of_mem_replicate hw]
    exact ⟨by simp, by simp⟩
  have h : 2 ≤ (_chunk_text_by_words text801 800).length := by
    have hne : pySplit text801 ≠ [] := by
      rw [hsplit]
      intro habs
      have hlen := congrArg List.length habs
      simp only [List.length_replicate, List.length_nil] at hlen
      exact absurd hlen (by omega)
    rw [show _chunk_text_by_words text801 800 =
        (chunksOf 800 (pySplit text801)).map joinSpace from by
      simp [_chunk_text_by_words, hne]]
    rw [List.length_map, hsplit,
      show (800 : Nat) = 799 + 1 from rfl, chunksOf_length, List.length_replicate]
  exact ⟨h, summarize_multi_chunk_reduce genEcho _ _ _ h⟩

end TextMorph

namespace TextMorph

/-- The `MODELS` table of `Backend/summarizer.py` lines 6-10: friendly key to
HuggingFace model id, in insertion order. -/
def MODELS : List (List Char × List Char) :=
  [("pegasus".data, "google/pegasus-xsum".data),
   ("bart".data, "facebook/bart-large-cnn".data),
   ("flan-t5".data, "google/flan-t5-large".data)]

/-- An HTTP error response (`fastapi.HTTPException`): status code and
detail string. -/
structure HttpError where
  status : Nat
  detail : List Char
deriving DecidableEq, Repr

/-- The response dict of `summarize_endpoint` (`Backend/main.py`
lines 180-185). -/
structure SummaryResponse where
  summary : List Char
  model : List Char
  original_length : Nat
  summary_length : Nat
deriving DecidableEq, Repr

/-- `summarize_endpoint` of `Backend/main.py` lines 113-192, restricted to
its pure request-validation and summarization logic.  `pdf_file` is `none`
when no file is uploaded and `some t` when a file with extracted text `t`
was uploaded (`t = []` models `extract_text_from_pdf` returning nothing);
writing the upload to disk and saving history are external side effects and
are not modelled.  Raised `HTTPException`s become `Except.error`. -/
def summarize_endpoint (gen : List Char → GenParams → List Char → List Char)
    (model_choice summary_length input_type text_input : List Char)
    (pdf_file : Option (List Char)) :
    Except HttpError SummaryResponse :=
  let mc := pyLower (if model_choice = [] then "pegasus".data else model_choice)
  if ¬ (MODELS.map Prod.fst).contains mc then
    .error ⟨422, "Invalid model_choice. Choose one of: pegasus, bart, flan-t5".data⟩
  else
    let sl := pyLower (if summary_length = [] then "medium".data else summary_length)
    if ¬ (sl = "short".data ∨ sl = "medium".data ∨ sl = "long".data) then
      .error ⟨422, "summary_length must be short, medium, or long".data⟩
    else
      let it := pyLower (if input_type = [] then "text".data else input_type)
      if ¬ (it = "text".data ∨ it = "pdf".data) then
        .error ⟨422, "input_type must be 'text' or 'pdf'".data⟩
      else
        let text_result : Except HttpError (List Char) :=
          if it = "pdf".data then
            match pdf_file with
            | none => .error ⟨400, "No PDF uploaded".data⟩
            | some t =>
              if t = [] then .error ⟨400, "Unable to extract text from PDF".data⟩
              else .ok t
          else
            let t := pyStrip text_input
            if t = [] then .error ⟨400, "No text provided".data⟩ else .ok t
        match text_result with
        | .error e => .error e
        | .ok t =>
          if t.length < 30 then
            .error ⟨400, "Text is too short to summarize (min ~30 characters)".data⟩
          else
            let summary := (summarize_text gen t mc sl).1
            .ok ⟨summary, mc, (pySplit t).length, (pySplit summary).length⟩

/-- C3 counterexample: at the claim's own scenario
`summarize("", "medium", "modelX")`, the endpoint fails with the
invalid-model 422 error, not an empty-input error — the model check runs
before the text check — and the underlying `summarize_text` function, given
blank input, returns the normal string `"Error: no text to summarize."`
rather than any distinguished error outcome. -/
theorem summarize_blank_counterexample :
    summarize_endpoint genEcho "modelX".data "medium".data "text".data [] none =
      .error ⟨422, "Invalid model_choice. Choose one of: pegasus, bart, flan-t5".data⟩ ∧
    (summarize_text genEcho "".data "modelX".data "medium".data).1 =
      "Error: no text to summarize.".data := by
  constructor
  · rfl
  · rfl

/-- C3 (amended): for blank or whitespace-only text input, a valid model
choice, a valid length class and the `"text"` input type, the HTTP endpoint
fails with the 400 "No text provided" error (the realization of
`EmptyInputError`); the lower-level `summarize_text` instead returns the
sentinel string `"Error: no text to summarize."`. -/
theorem summarize_blank_input_rejected
    (gen : List Char → GenParams → List Char → List Char)
    (model_choice summary_length text_input : List Char)
    (hm : (MODELS.map Prod.fst).contains
      (pyLower (if model_choice = [] then "pegasus".data else model_choice)) = true)
    (hs : pyLower (if summary_length = [] then "medium".data else summary_length) = "short".data ∨
      pyLower (if summary_length = [] then "medium".data else summary_length) = "medium".data ∨
      pyLower (if summary_length = [] then "medium".data else summary_length) = "long".data)
    (hb : pyStrip text_input = []) :
    summarize_endpoint gen model_choice summary_length "text".data text_input none =
      .error ⟨400, "No text provided".data⟩ ∧
    (summarize_text gen text_input model_choice summary_length).1 =
      "Error: no text to summarize.".data := by
  constructor
  · rw [summarize_endpoint]
    rw [if_neg (not_not_intro hm), if_neg (not_not_intro hs)]
    rw [if_neg (not_not_intro (by decide))]
    rw [if_neg (by decide)]
    simp only [hb]
    rfl
  · rw [summarize_text, if_pos hb]

/-- Witness for C3's amended theorem at blank input and the pegasus model. -/
theorem summarize_blank_input_rejected_witness :
    summarize_endpoint genEcho "pegasus".data "medium".data "text".data "  ".data none =
      .error ⟨400, "No text provided".data⟩ ∧
    (summarize_text genEcho "  ".data "pegasus".data "medium".data).1 =
      "Error: no text to summarize.".data :=
  summarize_blank_input_rejected genEcho "pegasus".data "medium".data "  ".data
    (by decide) (by decide) (by decide)

end TextMorph

namespace TextMorph

/-- Python `int(v)` on a float: truncation toward zero (modelled on exact
rationals). -/
def pyInt (v : Rat) : Int := if 0 ≤ v then v.floor else -((-v).floor)

/-- `clamp` of `Backend/parahrase.py` lines 43-45:
`max(lo, min(hi, int(v)))`. -/
def clamp (v : Rat) (lo hi : Int) : Int := max lo (min hi (pyInt v))

/-- The union of keyword arguments the `model.generate(...)` calls of
`Backend/parahrase.py` pass; an `Option` field is `none` when the call does
not pass that keyword.  Floats are modelled as exact rationals. -/
structure PGenParams where
  max_new_tokens : Int
  min_new_tokens : Int
  num_return_sequences : Nat := 1
  do_sample : Bool := false
  temperature : Option Rat := none
  top_p : Option Rat := none
  num_beams : Option Nat := none
  num_beam_groups : Option Nat := none
  diversity_penalty : Option Rat := none
  length_penalty : Option Rat := none
  no_repeat_ngram_size : Option Nat := none
  repetition_penalty : Option Rat := none
  early_stopping : Bool := true
deriving DecidableEq, Repr

/-- The paraphrase target-length bounds of `Backend/parahrase.py`
lines 91-99, as `(max_new, min_new)`: word count scaled by the length-class
multipliers and ×1.3, clamped per class; unknown classes fall to the
`medium` else-branch. -/
def pLengthBounds (length : List Char) (original_word_count : Nat) : Int × Int :=
  if length = "short".data then
    (clamp ((original_word_count : Rat) * 1.0 * 1.3) 32 512,
     clamp ((original_word_count : Rat) * 0.8 * 1.3) 24 384)
  else if length = "long".data then
    (clamp ((original_word_count : Rat) * 1.5 * 1.3) 64 768,
     clamp ((original_word_count : Rat) * 1.2 * 1.3) 48 512)
  else
    (clamp ((original_word_count : Rat) * 1.2 * 1.3) 48 640,
     clamp ((original_word_count : Rat) * 1.0 * 1.3) 32 512)

/-- The first-pass prompt dispatch of `Backend/parahrase.py` lines 106-117:
substring tests on the lower-cased model name, in source order
(t5, then bart, then flan, else the raw text). -/
def pPrompt (model_name_lower text : List Char) : List Char :=
  if "t5".data <:+: model_name_lower then "paraphrase: ".data ++ text
  else if "bart".data <:+: model_name_lower then
    "Paraphrase the following while keeping the original meaning: ".data ++ text
  else if "flan".data <:+: model_name_lower then
    "Rewrite the following text in a different way but keep the same meaning: ".data ++ text
  else text

/-- The retry prompt dispatch of `Backend/parahrase.py` lines 184-189. -/
def pAltPrompt (model_name_lower text : List Char) : List Char :=
  if "t5".data <:+: model_name_lower then "paraphrase this completely: ".data ++ text
  else if "bart".data <:+: model_name_lower ∨ "flan".data <:+: model_name_lower then
    "Provide a complete paraphrase of this text with similar length: ".data ++ text
  else text

/-- First initial generation call (`Backend/parahrase.py` lines 122-134):
sampling with caller-scaled temperature and nucleus size. -/
def pInitialSampleParams (max_new min_new : Int) (temperature top_p : Rat) : PGenParams :=
  { max_new_tokens := max_new, min_new_tokens := min_new, num_return_sequences := 1,
    do_sample := true, temperature := some temperature, top_p := some top_p,
    length_penalty := some 1, no_repeat_ngram_size := some 3,
    repetition_penalty := some 1.2, early_stopping := true }

/-- Second initial generation call (`Backend/parahrase.py` lines 138-151):
diverse beam search. -/
def pInitialBeamParams (max_new min_new : Int) : PGenParams :=
  { max_new_tokens := max_new, min_new_tokens := min_new, num_beams := some 4,
    num_beam_groups := some 4, diversity_penalty := some 1, do_sample := false,
    num_return_sequences := 1, length_penalty := some 1.2,
    no_repeat_ngram_size := some 2, repetition_penalty := some 1.3,
    early_stopping := true }

/-- First retry call (`Backend/parahrase.py` lines 194-206). -/
def pRetrySampleParams (original_word_count : Nat) : PGenParams :=
  { max_new_tokens := pyInt (max ((original_word_count : Rat) * 1.5) 64),
    min_new_tokens := pyInt (max ((original_word_count : Rat) * 0.8) 24),
    num_return_sequences := 1, do_sample := true, temperature := some 0.9,
    top_p := some 0.95, length_penalty := some 1.5,
    no_repeat_ngram_size := some 2, repetition_penalty := some 1.1,
    early_stopping := true }

/-- Second retry call (`Backend/parahrase.py` lines 209-222). -/
def pRetryBeamParams (original_word_count : Nat) : PGenParams :=
  { max_new_tokens := pyInt (max ((original_word_count : Rat) * 1.5) 64),
    min_new_tokens := pyInt (max ((original_word_count : Rat) * 0.8) 24),
    num_return_sequences := 1, do_sample := false, num_beams := some 4,
    num_beam_groups := some 4, diversity_penalty := some 1,
    length_penalty := some 1.7, no_repeat_ngram_size := some 3,
    repetition_penalty := some 1.3, early_stopping := true }

/-- Final-correction call for T5 families (`Backend/parahrase.py`
lines 244-255): maximal diverse-beam settings. -/
def pFinalT5Params (max_new min_new : Int) : PGenParams :=
  { max_new_tokens := max_new, min_new_tokens := min_new,
    num_return_sequences := 1, do_sample := false, num_beams := some 5,
    num_beam_groups := some 5, diversity_penalty := some 1.5,
    no_repeat_ngram_size := some 2, early_stopping := true }

/-- Final-correction call for BART families (`Backend/parahrase.py`
lines 261-272). -/
def pFinalBartParams (max_new min_new : Int) : PGenParams :=
  { max_new_tokens := max_new, min_new_tokens := min_new,
    num_return_sequences := 1, do_sample := false, num_beams := some 5,
    num_beam_groups := some 5, diversity_penalty := some 1.5,
    length_penalty := some 1, early_stopping := true }

/-- `set(t.lower().split())`: the distinct lower-cased words of a text. -/
def pyWordSet (t : List Char) : List (List Char) := (pySplit (pyLower t)).dedup

/-- The size of the intersection of two word sets (both arguments are
duplicate-free lists). -/
def interCount (a b : List (List Char)) : Nat :=
  (a.filter (fun w => decide (w ∈ b))).length

/-- The sibling word-overlap ratio used by the final diversity check of
`Backend/parahrase.py` line 238: common distinct words over the smaller
word-set size. -/
def siblingOverlap (p1 p2 : List Char) : Rat :=
  (interCount (pyWordSet p1) (pyWordSet p2) : Rat) /
    ((min (pyWordSet p1).length (pyWordSet p2).length : Nat) : Rat)

/-- The retry decision of `Backend/parahrase.py` lines 160-179 over the two
decoded candidates: retry when both strip to nothing, or both are shorter
than 70% of the source word count, or the two candidates share more than
80% of the first candidate's distinct words. -/
def retryDecision (text p1 p2 : List Char) : Bool :=
  if pyStrip p1 = [] ∧ pyStrip p2 = [] then true
  else
    let original_token_count := (pySplit text).length
    let b_short :=
      decide (((pySplit p1).length : Rat) < (original_token_count : Rat) * 0.7) &&
      decide (((pySplit p2).length : Rat) < (original_token_count : Rat) * 0.7)
    let words1 := pyWordSet p1
    let words2 := pyWordSet p2
    let b_sim :=
      decide (0 < words1.length) &&
      decide ((0.8 : Rat) < (interCount words1 words2 : Rat) / (words1.length : Rat))
    b_short || b_sim

/-- The final diversity correction of `Backend/parahrase.py` lines 231-273:
when both candidates have words and their overlap (common distinct words
over the smaller set) exceeds 0.75, the second candidate — and only the
second — is regenerated with a family-specific "rewrite completely
differently" prompt (T5 and BART families; other families are left as
they are).  Returns the pair and the generation calls issued. -/
def finalCorrection (gen : PGenParams → List Char → List Char)
    (model_name_lower text : List Char) (max_new min_new : Int)
    (pts : List Char × List Char) :
    (List Char × List Char) × List (PGenParams × List Char) :=
  let words1 := pyWordSet pts.1
  let words2 := pyWordSet pts.2
  if 0 < words1.length ∧ 0 < words2.length ∧
      (0.75 : Rat) < (interCount words1 words2 : Rat) /
        ((min words1.length words2.length : Nat) : Rat) then
    if "t5".data <:+: model_name_lower then
      let final_prompt := "rewrite completely differently: ".data ++ text
      ((pts.1, gen (pFinalT5Params max_new min_new) final_prompt),
        [(pFinalT5Params max_new min_new, final_prompt)])
    else if "bart".data <:+: model_name_lower then
      let final_prompt := "Completely rephrase the following with different words: ".data ++ text
      ((pts.1, gen (pFinalBartParams max_new min_new) final_prompt),
        [(pFinalBartParams max_new min_new, final_prompt)])
    else (pts, [])
  else (pts, [])

/-- Stages 1-2 of `paraphrase_text` (`Backend/parahrase.py` lines 119-229):
the two initial generation calls, the retry decision, and the one-shot
retry pair.  Returns the settled candidate pair and the retry calls it
issued (the two initial calls are recorded by the caller). -/
def pSettledPair (gen : PGenParams → List Char → List Char)
    (t model_name_lower : List Char) (max_new min_new : Int)
    (temperature top_p : Rat) (original_word_count : Nat) :
    (List Char × List Char) × List (PGenParams × List Char) :=
  let prompt := pPrompt model_name_lower t
  let o1 := gen (pInitialSampleParams max_new min_new temperature top_p) prompt
  let o2 := gen (pInitialBeamParams max_new min_new) prompt
  if retryDecision t o1 o2 then
    let ap := pAltPrompt model_name_lower t
    ((gen (pRetrySampleParams original_word_count) ap,
      gen (pRetryBeamParams original_word_count) ap),
      [(pRetrySampleParams original_word_count, ap),
       (pRetryBeamParams original_word_count, ap)])
  else ((o1, o2), [])

/-- The result of `paraphrase_text`: the two candidate texts in order, plus
the instrumented list of generation calls issued, in order.  The
complexity-analysis and chart fields of the Python return dict are external
(`textstat` / matplotlib) side outputs derived from these texts and are not
modelled. -/
structure ParaResult where
  texts : List (List Char)
  calls : List (PGenParams × List Char)
deriving DecidableEq, Repr

/-- `paraphrase_text` of `Backend/parahrase.py` lines 47-305.  `gen params
prompt` stands for tokenizer + `model.generate` + decode of the first
returned sequence; model loading is the cached external collaborator.
A raised `ValueError` becomes `Except.error`. -/
def paraphrase_text (gen : PGenParams → List Char → List Char)
    (text model_name : List Char) (creativity : Rat) (length : List Char) :
    Except (List Char) ParaResult :=
  let t := pyStrip text
  if t = [] then .error "text must be non-empty".data
  else
    let original_word_count := max 1 (pySplit t).length
    let max_new := (pLengthBounds length original_word_count).1
    let min_new := (pLengthBounds length original_word_count).2
    let temperature := 0.5 + creativity
    let top_p := min 0.99 (0.85 + creativity / 10)
    let model_name_lower := pyLower model_name
    let prompt := pPrompt model_name_lower t
    let p1 := pInitialSampleParams max_new min_new temperature top_p
    let p2 := pInitialBeamParams max_new min_new
    let retried :=
      pSettledPair gen t model_name_lower max_new min_new temperature top_p
        original_word_count
    let fc := finalCorrection gen model_name_lower t max_new min_new retried.1
    .ok ⟨[fc.1.1, fc.1.2], [(p1, prompt), (p2, prompt)] ++ retried.2 ++ fc.2⟩

end TextMorph

namespace TextMorph

theorem append_left_ne_of_length_ne (a b t : List Char) (h : a.length ≠ b.length) :
    a ++ t ≠ b ++ t := by
  intro heq
  have hl := congrArg List.length heq
  rw [List.length_append, List.length_append] at hl
  omega

theorem ne_append_left_of_ne_nil (b t : List Char) (hb : b ≠ []) : t ≠ b ++ t := by
  intro heq
  have hl := congrArg List.length heq
  rw [List.length_append] at hl
  have hb' : 0 < b.length := List.length_pos.mpr hb
  omega

/-- C10: in the paraphrase prompt dispatch, any model name containing "t5"
(lower-cased) gets the `"paraphrase: "` prefix — including
"google/flan-t5-large" — while the flan instruction template is used
exactly for names containing "flan" but neither "t5" nor "bart", and names
matching none of the three substrings use the raw text. -/
theorem paraphrase_prompt_dispatch (model_name t : List Char) :
    (("t5".data <:+: pyLower model_name) →
      pPrompt (pyLower model_name) t = "paraphrase: ".data ++ t) ∧
    (("flan".data <:+: pyLower model_name) ∧ ¬ ("t5".data <:+: pyLower model_name) ∧
        ¬ ("bart".data <:+: pyLower model_name) →
      pPrompt (pyLower model_name) t =
        "Rewrite the following text in a different way but keep the same meaning: ".data ++ t) ∧
    (¬ (("flan".data <:+: pyLower model_name) ∧ ¬ ("t5".data <:+: pyLower model_name) ∧
        ¬ ("bart".data <:+: pyLower model_name)) →
      pPrompt (pyLower model_name) t ≠
        "Rewrite the following text in a different way but keep the same meaning: ".data ++ t) ∧
    (¬ ("t5".data <:+: pyLower model_name) ∧ ¬ ("bart".data <:+: pyLower model_name) ∧
        ¬ ("flan".data <:+: pyLower model_name) →
      pPrompt (pyLower model_name) t = t) ∧
    pPrompt (pyLower "google/flan-t5-large".data) t = "paraphrase: ".data ++ t := by
  refine ⟨?_, ?_, ?_, ?_, ?_⟩
  · intro h
    rw [pPrompt, if_pos h]
  · intro h
    rw [pPrompt, if_neg h.2.1, if_neg h.2.2, if_pos h.1]
  · intro hnc
    by_cases ht5 : "t5".data <:+: pyLower model_name
    · rw [pPrompt, if_pos ht5]
      exact append_left_ne_of_length_ne _ _ _ (by decide)
    · by_cases hbart : "bart".data <:+: pyLower model_name
      · rw [pPrompt, if_neg ht5, if_pos hbart]
        exact append_left_ne_of_length_ne _ _ _ (by decide)
      · have hnf : ¬ ("flan".data <:+: pyLower model_name) :=
          fun hf => hnc ⟨hf, ht5, hbart⟩
        rw [pPrompt, if_neg ht5, if_neg hbart, if_neg hnf]
        exact ne_append_left_of_ne_nil _ _ (by decide)
  · intro h
    rw [pPrompt, if_neg h.1, if_neg h.2.1, if_neg h.2.2]
  · rw [pPrompt, if_pos (by decide)]

/-- Witness for C10: the flan-t5 model name concretely takes the T5 branch. -/
theorem paraphrase_prompt_dispatch_witness :
    pPrompt (pyLower "google/flan-t5-large".data) "x".data =
      "paraphrase: ".data ++ "x".data :=
  (paraphrase_prompt_dispatch "google/flan-t5-large".data "x".data).2.2.2.2

/-- C8: the final sibling-similarity correction step never changes the
first candidate: its first output is its first input, for every oracle,
model family, text, bound and candidate pair; consequently the first text
`paraphrase_text` returns is the first candidate of the settled
(post-retry) pair, and only the second position is ever replaced. -/
theorem paraphrase_final_correction_preserves_first
    (gen : PGenParams → List Char → List Char)
    (model_name_lower text : List Char) (max_new min_new : Int)
    (pts : List Char × List Char) :
    ((finalCorrection gen model_name_lower text max_new min_new pts).1).1 = pts.1 ∧
    (∀ (text0 model_name len : List Char) (creativity : Rat) (r : ParaResult),
      paraphrase_text gen text0 model_name creativity len = .ok r →
      r.texts = [(pSettledPair gen (pyStrip text0) (pyLower model_name)
          (pLengthBounds len (max 1 (pySplit (pyStrip text0)).length)).1
          (pLengthBounds len (max 1 (pySplit (pyStrip text0)).length)).2
          (0.5 + creativity) (min 0.99 (0.85 + creativity / 10))
          (max 1 (pySplit (pyStrip text0)).length)).1.1,
        ((finalCorrection gen (pyLower model_name) (pyStrip text0)
          (pLengthBounds len (max 1 (pySplit (pyStrip text0)).length)).1
          (pLengthBounds len (max 1 (pySplit (pyStrip text0)).length)).2
          (pSettledPair gen (pyStrip text0) (pyLower model_name)
            (pLengthBounds len (max 1 (pySplit (pyStrip text0)).length)).1
            (pLengthBounds len (max 1 (pySplit (pyStrip text0)).length)).2
            (0.5 + creativity) (min 0.99 (0.85 + creativity / 10))
            (max 1 (pySplit (pyStrip text0)).length)).1).1).2]) := by
  have hfirst : ∀ (mnl tx : List Char) (mx mn : Int) (p : List Char × List Char),
      ((finalCorrection gen mnl tx mx mn p).1).1 = p.1 := by
    intro mnl tx mx mn p
    rw [finalCorrection]
    split_ifs <;> rfl
  refine ⟨hfirst _ _ _ _ _, ?_⟩
  intro text0 model_name len creativity r hok
  rw [paraphrase_text] at hok
  by_cases hb : pyStrip text0 = []
  · rw [if_pos hb] at hok
    cases hok
  · rw [if_neg hb] at hok
    injection hok with hr
    rw [← hr]
    rw [hfirst]

end TextMorph

namespace TextMorph

/-- A prompt-echoing paraphrase oracle, for concrete witnesses. -/
def genPEcho : PGenParams → List Char → List Char := fun _ prompt => prompt

/-- Witness for C8: the final correction leaves the first candidate of a
concrete pair untouched. -/
theorem paraphrase_final_correction_preserves_first_witness :
    ((finalCorrection genPEcho "pegasus".data "t".data 10 5
      ("a".data, "b".data)).1).1 = "a".data :=
  (paraphrase_final_correction_preserves_first genPEcho "pegasus".data "t".data 10 5
    ("a".data, "b".data)).1

/-- An oracle whose sampling pass says "a b c d e" and whose beam pass says
"a b c d": the two candidates share 4 of the smaller set's 4 words
(overlap 1.0) yet share only 4 of the first set's 5 words (ratio 0.8, not
above the 0.8 retry threshold), so no retry fires. -/
def genDegenerate : PGenParams → List Char → List Char :=
  fun p _ => if p.do_sample then "a b c d e".data else "a b c d".data

/-- C9 counterexample: for the model name "pegasus" (no "t5"/"bart"/"flan"
substring) the final diversity check corrects nothing, and
`paraphrase_text` returns a pair whose word-overlap ratio (common distinct
words over the smaller set) is 1.0 > 0.75. -/
theorem paraphrase_overlap_counterexample :
    (paraphrase_text genDegenerate "one two three".data "pegasus".data 0.3
        "medium".data).map (fun r => r.texts) =
      .ok ["a b c d e".data, "a b c d".data] ∧
    (0.75 : Rat) < siblingOverlap "a b c d e".data "a b c d".data := by
  have ht : pyStrip "one two three".data = "one two three".data := by decide
  have hlow : pyLower "pegasus".data = "pegasus".data := by decide
  have hprompt : pPrompt "pegasus".data "one two three".data = "one two three".data := by
    rw [pPrompt, if_neg (by decide), if_neg (by decide), if_neg (by decide)]
  have hg1 : ∀ (mx mn : Int) (tp pp : Rat) (prompt : List Char),
      genDegenerate (pInitialSampleParams mx mn tp pp) prompt = "a b c d e".data :=
    fun _ _ _ _ _ => rfl
  have hg2 : ∀ (mx mn : Int) (prompt : List Char),
      genDegenerate (pInitialBeamParams mx mn) prompt = "a b c d".data :=
    fun _ _ _ => rfl
  have hw1 : pyWordSet "a b c d e".data = [['a'], ['b'], ['c'], ['d'], ['e']] := by decide
  have hw2 : pyWordSet "a b c d".data = [['a'], ['b'], ['c'], ['d']] := by decide
  have hinter : interCount [['a'], ['b'], ['c'], ['d'], ['e']]
      [['a'], ['b'], ['c'], ['d']] = 4 := by decide
  have hl1 : (pySplit "a b c d e".data).length = 5 := by decide
  have hl2 : (pySplit "a b c d".data).length = 4 := by decide
  have hl0 : (pySplit "one two three".data).length = 3 := by decide
  have hrd : retryDecision "one two three".data "a b c d e".data "a b c d".data = false := by
    rw [retryDecision, if_neg (by decide)]
    simp only [hl0, hl1, hl2, hw1, hw2, hinter]
    rw [decide_eq_false (by norm_num : ¬ (((5 : Nat) : Rat) < ((3 : Nat) : Rat) * 0.7))]
    rw [decide_eq_false (by norm_num :
      ¬ ((0.8 : Rat) < ((4 : Nat) : Rat) / (([['a'], ['b'], ['c'], ['d'], ['e']] :
        List (List Char)).length : Rat)))]
    simp
  have hfc : finalCorrection genDegenerate "pegasus".data "one two three".data
      (pLengthBounds "medium".data 3).1 (pLengthBounds "medium".data 3).2
      ("a b c d e".data, "a b c d".data) =
      (("a b c d e".data, "a b c d".data), []) := by
    rw [finalCorrection]
    simp only [hw1, hw2, hinter]
    split_ifs with h1 h2 h3
    · exact absurd h2 (by decide)
    · exact absurd h3 (by decide)
    · rfl
    · rfl
  have hsp : pSettledPair genDegenerate "one two three".data "pegasus".data
      (pLengthBounds "medium".data 3).1 (pLengthBounds "medium".data 3).2
      (0.5 + 0.3) (min 0.99 (0.85 + 0.3 / 10)) 3 =
      (("a b c d e".data, "a b c d".data), []) := by
    rw [pSettledPair]
    simp only [hprompt, hg1, hg2, hrd]
    rfl
  constructor
  · rw [paraphrase_text]
    rw [if_neg (by decide)]
    simp only [ht, hlow, hl0]
    rw [show max 1 3 = 3 from rfl]
    rw [hsp, hfc]
    rfl
  · rw [siblingOverlap, hw1, hw2, hinter]
    norm_num

/-- C9 (amended): the final diversity check never makes a pair worse — if
the settled pair's overlap is already within the 0.75 bound the correction
leaves the pair unchanged (so the bound still holds); a pair above the
bound is regenerated only for t5/bart model families, and the regenerated
pair is not re-checked, so no unconditional overlap bound holds on the
final output. -/
theorem paraphrase_final_check_no_false_correction
    (gen : PGenParams → List Char → List Char)
    (model_name_lower text : List Char) (max_new min_new : Int)
    (pts : List Char × List Char)
    (h : siblingOverlap pts.1 pts.2 ≤ 0.75) :
    (finalCorrection gen model_name_lower text max_new min_new pts).1 = pts ∧
    siblingOverlap ((finalCorrection gen model_name_lower text max_new min_new pts).1).1
      ((finalCorrection gen model_name_lower text max_new min_new pts).1).2 ≤ 0.75 := by
  have hcond : ¬ (0 < (pyWordSet pts.1).length ∧ 0 < (pyWordSet pts.2).length ∧
      (0.75 : Rat) < (interCount (pyWordSet pts.1) (pyWordSet pts.2) : Rat) /
        ((min (pyWordSet pts.1).length (pyWordSet pts.2).length : Nat) : Rat)) := by
    intro hc
    rw [siblingOverlap] at h
    exact absurd hc.2.2 (not_lt.mpr h)
  have heq : (finalCorrection gen model_name_lower text max_new min_new pts).1 = pts := by
    rw [finalCorrection, if_neg hcond]
  exact ⟨heq, by rw [heq]; exact h⟩

/-- Witness for C9's amended theorem: a pair with zero overlap is returned
unchanged. -/
theorem paraphrase_final_check_no_false_correction_witness :
    siblingOverlap "a".data "b".data ≤ 0.75 ∧
    ((finalCorrection genPEcho "pegasus".data "t".data 10 5
        ("a".data, "b".data)).1 = ("a".data, "b".data) ∧
      siblingOverlap ((finalCorrection genPEcho "pegasus".data "t".data 10 5
          ("a".data, "b".data)).1).1
        ((finalCorrection genPEcho "pegasus".data "t".data 10 5
          ("a".data, "b".data)).1).2 ≤ 0.75) := by
  have h : siblingOverlap "a".data "b".data ≤ 0.75 := by
    rw [siblingOverlap]
    rw [show interCount (pyWordSet "a".data) (pyWordSet "b".data) = 0 from by decide]
    norm_num
  exact ⟨h, paraphrase_final_check_no_false_correction genPEcho "pegasus".data "t".data
    10 5 ("a".data, "b".data) h⟩

end TextMorph

namespace TextMorph

/-- `_too_similar` of `Backend/fine_tuned_summarizer.py` lines 70-88: the
near-copy heuristic.  `len_ratio` is the candidate-to-source word-count
ratio capped at 1; `overlap` is the shared distinct words over the
candidate's distinct-word count; the verdict is the OR of the two
threshold tests (after the exact stripped-lower-cased match). -/
def _too_similar (src cand : List Char) : Bool :=
  if src = [] ∨ cand = [] then false
  else
    let s := pyLower (pyStrip src)
    let c := pyLower (pyStrip cand)
    if s = c then true
    else
      let src_words := pySplit s
      let cand_words := pySplit c
      if cand_words = [] then false
      else
        let len_ratio : Rat :=
          min ((cand_words.length : Rat) / ((max src_words.length 1 : Nat) : Rat)) 1
        let overlap : Rat :=
          (interCount src_words.dedup cand_words.dedup : Rat) /
            ((max cand_words.dedup.length 1 : Nat) : Rat)
        decide ((0.95 : Rat) < len_ratio) || decide ((0.95 : Rat) < overlap)

/-- Jaccard word overlap (shared distinct lower-cased words over the union
of distinct words), as claim C7's wording asks for. -/
def jaccardOverlap (src cand : List Char) : Rat :=
  let sa := (pySplit (pyLower src)).dedup
  let sb := (pySplit (pyLower cand)).dedup
  (interCount sa sb : Rat) / ((sa.length + sb.length - interCount sa sb : Nat) : Rat)

/-- The `too_similar_to_source` verdict exactly as claim C7 states it:
exact case-insensitive match, OR word-count ratio above 0.95 AND Jaccard
word overlap above 0.95 jointly. -/
def spec_too_similar (src cand : List Char) : Bool :=
  (pyLower src == pyLower cand) ||
    (decide ((0.95 : Rat) < ((pySplit (pyLower cand)).length : Rat) /
        ((pySplit (pyLower src)).length : Rat)) &&
     decide ((0.95 : Rat) < jaccardOverlap src cand))

/-- A 21-word source with pairwise-distinct words. -/
def srcA : List Char := "a b c d e f g h i j k l m n o p q r s t u".data

/-- A 21-word candidate sharing no word with `srcA`. -/
def candA : List Char := "v w x y z 0 1 2 3 4 5 6 7 8 9 aa bb cc dd ee ff".data

/-- C7 counterexample: a candidate with the same word count as the source
but no shared word at all.  The code's verdict is true (the length ratio
alone, 21/21 = 1 > 0.95, suffices because the code combines the two tests
with OR), while the claim's AND-combination says false. -/
theorem too_similar_counterexample :
    _too_similar srcA candA = true ∧ spec_too_similar srcA candA = false := by
  constructor
  · rw [_too_similar, if_neg (by decide), if_neg (by decide), if_neg (by decide)]
    simp only [Bool.or_eq_true, decide_eq_true_eq]
    left
    rw [show (pySplit (pyLower (pyStrip candA))).length = 21 from by decide,
      show (pySplit (pyLower (pyStrip srcA))).length = 21 from by decide]
    norm_num
  · have hne : (pyLower srcA == pyLower candA) = false := by decide
    have hj0 : interCount ((pySplit (pyLower srcA)).dedup)
        ((pySplit (pyLower candA)).dedup) = 0 := by decide
    rw [spec_too_similar, hne, jaccardOverlap, hj0]
    simp only [Nat.cast_zero, zero_div]
    rw [decide_eq_false (by norm_num : ¬ ((0.95 : Rat) < 0))]
    simp

/-- C7 (amended): the code's verdict is true exactly when both raw strings
are nonempty and either the stripped lower-cased texts match exactly, or
the candidate has at least one word and EITHER the capped word-count ratio
exceeds 0.95 OR the candidate-normalized distinct-word overlap exceeds
0.95 — each threshold alone suffices (OR, not AND). -/
theorem too_similar_iff (src cand : List Char) :
    _too_similar src cand = true ↔
      src ≠ [] ∧ cand ≠ [] ∧
        (pyLower (pyStrip src) = pyLower (pyStrip cand) ∨
          (pySplit (pyLower (pyStrip cand)) ≠ [] ∧
            ((0.95 : Rat) < min (((pySplit (pyLower (pyStrip cand))).length : Rat) /
                ((max (pySplit (pyLower (pyStrip src))).length 1 : Nat) : Rat)) 1 ∨
             (0.95 : Rat) < (interCount ((pySplit (pyLower (pyStrip src))).dedup)
                ((pySplit (pyLower (pyStrip cand))).dedup) : Rat) /
                ((max ((pySplit (pyLower (pyStrip cand))).dedup).length 1 : Nat) : Rat)))) := by
  simp only [_too_similar]
  split_ifs with h1 h2 h3
  · constructor
    · intro hfalse
      simp at hfalse
    · rintro ⟨hs, hc, -⟩
      rcases h1 with h | h
      · exact absurd h hs
      · exact absurd h hc
  · push_neg at h1
    constructor
    · intro _
      exact ⟨h1.1, h1.2, Or.inl h2⟩
    · intro _
      rfl
  · constructor
    · intro hfalse
      simp at hfalse
    · rintro ⟨hs, hc, hor⟩
      rcases hor with he | ⟨hcw, -⟩
      · exact absurd he h2
      · exact absurd h3 hcw
  · push_neg at h1
    simp only [Bool.or_eq_true, decide_eq_true_eq]
    constructor
    · intro hor
      exact ⟨h1.1, h1.2, Or.inr ⟨h3, hor⟩⟩
    · rintro ⟨-, -, he | ⟨-, hor⟩⟩
      · exact absurd he h2
      · exact hor

/-- Witness for C7's amended theorem: an exact match is flagged. -/
theorem too_similar_iff_witness : _too_similar "a b".data "a b".data = true :=
  (too_similar_iff "a b".data "a b".data).mpr
    ⟨by decide, by decide, Or.inl (by decide)⟩

end TextMorph

namespace TextMorph

/-- The request shape of `/evaluate/metrics`
(`Backend/metrics_schemas.py`). -/
structure MetricsRequest where
  reference : List Char
  candidate : List Char
  original_text : Option (List Char)
deriving DecidableEq, Repr

/-- A field-level metric outcome: either computed, or an explicit
unavailability marker with its reason. -/
inductive MetricOutcome
  | computed
  | unavailable (reason : List Char)
deriving DecidableEq, Repr

/-- The per-metric availability structure of the score-report bundle
(spec §3 ScoreReport / `Backend/metrics_schemas.py` `MetricsResponse`):
the numeric payloads live inside the external metric formulas and are not
needed by the error-handling claim. -/
structure SpecScoreReport where
  bleu : MetricOutcome
  perplexity_candidate : MetricOutcome
  perplexity_reference : MetricOutcome
  readability_delta_original : MetricOutcome
  readability_delta_reference : MetricOutcome
deriving DecidableEq, Repr

/-- Modelled from the spec: `calculate_all_metrics` is defined in
`Backend/metrics.py`, a module that is not among the repository's source
files (only its import and call site in `Backend/main.py` are).  Spec §4.5:
it composes BLEU, perplexity of the candidate (and reference) and the
readability deltas, and "all functions are total over their documented
input domain: no exceptions for empty/short/degenerate text — they return
a structured 'metric unavailable' value instead".  The availability
conditions follow §4.5's per-metric rules: BLEU is unavailable when either
text tokenizes to zero words, perplexity when the text has fewer tokens
than the n-gram order (n = 2 here), the original-vs-candidate readability
delta when no original text is supplied or it is empty, and the
reference-vs-candidate delta when either text is empty. -/
def calculate_all_metrics (reference candidate : List Char)
    (original : Option (List Char)) : SpecScoreReport :=
  { bleu :=
      if pySplit reference = [] ∨ pySplit candidate = [] then
        .unavailable "empty text".data
      else .computed,
    perplexity_candidate :=
      if (pySplit candidate).length < 2 then .unavailable "too short".data
      else .computed,
    perplexity_reference :=
      if (pySplit reference).length < 2 then .unavailable "too short".data
      else .computed,
    readability_delta_original :=
      match original with
      | none => .unavailable "no original text".data
      | some o => if o = [] then .unavailable "empty text".data else .computed,
    readability_delta_reference :=
      if reference = [] ∨ candidate = [] then .unavailable "empty text".data
      else .computed }

/-- `evaluate_metrics` of `Backend/main.py` lines 310-336.  `calcAll` is the
metrics collaborator (`calculate_all_metrics`); the broad
`except Exception` clause catches even the endpoint's own 422
`HTTPException` and re-raises it as a 500 whose detail is `str(e)`,
modelled by re-wrapping the error's detail under status 500. -/
def evaluate_metrics
    (calcAll : List Char → List Char → Option (List Char) → SpecScoreReport)
    (payload : MetricsRequest) : Except HttpError SpecScoreReport :=
  let ref := pyStrip payload.reference
  let cand := pyStrip payload.candidate
  let original : Option (List Char) :=
    match payload.original_text with
    | none => none
    | some t => if t = [] then none else some (pyStrip t)
  let inner : Except HttpError SpecScoreReport :=
    if ref = [] ∨ cand = [] then
      .error ⟨422, "Both reference and candidate must be non-empty".data⟩
    else .ok (calcAll ref cand original)
  match inner with
  | .ok r => .ok r
  | .error e => .error ⟨500, e.detail⟩

/-- C6 counterexample: an empty reference makes the score endpoint fail
with an HTTP error (the 422 validation error, surfaced as a 500 by the
broad exception handler) instead of returning a degraded report. -/
theorem evaluate_metrics_counterexample :
    evaluate_metrics calculate_all_metrics ⟨"".data, "x".data, none⟩ =
      .error ⟨500, "Both reference and candidate must be non-empty".data⟩ := rfl

/-- C6 (amended): whenever reference and candidate strip to nonempty text,
the score endpoint returns a report bundle and never an error — whatever
the (total) metrics collaborator reports per field — with the stripped
texts and the original-text normalization (`None`/empty become no
original) passed through. -/
theorem evaluate_metrics_ok_on_nonempty
    (calcAll : List Char → List Char → Option (List Char) → SpecScoreReport)
    (payload : MetricsRequest)
    (h1 : pyStrip payload.reference ≠ [])
    (h2 : pyStrip payload.candidate ≠ []) :
    evaluate_metrics calcAll payload =
      .ok (calcAll (pyStrip payload.reference) (pyStrip payload.candidate)
        (match payload.original_text with
         | none => none
         | some t => if t = [] then none else some (pyStrip t))) := by
  rw [evaluate_metrics]
  rw [if_neg (by tauto)]

/-- Witness for C6's amended theorem at the spec-modelled metrics
collaborator and the spec's own scenario pair. -/
theorem evaluate_metrics_ok_on_nonempty_witness :
    evaluate_metrics calculate_all_metrics
      ⟨"The cat sat on the mat.".data, "A cat sat on a mat.".data, none⟩ =
      .ok (calculate_all_metrics (pyStrip "The cat sat on the mat.".data)
        (pyStrip "A cat sat on a mat.".data)
        (match (none : Option (List Char)) with
         | none => none
         | some t => if t = [] then none else some (pyStrip t))) :=
  evaluate_metrics_ok_on_nonempty calculate_all_metrics
    ⟨"The cat sat on the mat.".data, "A cat sat on a mat.".data, none⟩
    (by decide) (by decide)

end TextMorph
